import Mathlib

/-!
Shallow embedding of the core of `elexon-data-ingest`
(`src/elexon_data_ingest/elexon_api.py` and
`src/elexon_data_ingest/ingest_data.py`).

Modelling conventions:
* pandas `DataFrame`s produced by the three strategies are modelled as ordered
  lists of typed rows; a frame built from an empty list of records has no
  columns, which is reflected wherever a join keys on the `timestamp` column
  (the join raises `KeyError` exactly when the keyed frame is empty);
* `datetime.date` values (produced by `.date()`) and `pd.Timestamp` values
  (produced by `pd.to_datetime`) are distinct Python objects that never compare
  equal to each other, hence the two-constructor type `TSVal`;
* `pd.to_datetime` is modelled on the string shapes the provider uses
  (`YYYY-MM-DD` and `YYYY-MM-DDTHH:MM:SS`); any other string is a parse error;
* Python exceptions are modelled with `Except`: `requests.RequestException`
  (the only class caught in `ElexonAPI.fetch_data`) is the separate type
  `TransportError`, while `KeyError` / date-parse / `TypeError` failures that
  propagate are the type `PyErr`;
* JSON numbers appearing in the payloads are modelled as `Int`.
-/

deriving instance DecidableEq for Except

/-- Calendar date, the value of a Python `datetime.date`. -/
structure DateV where
  year : Nat
  month : Nat
  day : Nat
deriving DecidableEq, Inhabited

/-- A `pd.Timestamp`: a calendar date plus a time of day in seconds. -/
structure PyTimestamp where
  date : DateV
  secondOfDay : Nat
deriving DecidableEq, Inhabited

/-- A value stored in a `timestamp` column: either a `datetime.date` (as put
there by `TemperatureStrategy` via `.date()`) or a `pd.Timestamp`.  Values of
the two kinds never compare equal, as in Python. -/
inductive TSVal
  | pyDate (d : DateV)
  | pyDateTime (t : PyTimestamp)
deriving DecidableEq, Inhabited

/-- The calendar date of a timestamp value, as computed by `.dt.date` on a
datetime column. -/
def tsDate : TSVal → DateV
  | .pyDate d => d
  | .pyDateTime t => t.date

/-- Split a character list on a separator, the list analogue of
`str.split` with a single-character separator. -/
def splitOnChar (sep : Char) : List Char → List (List Char)
  | [] => [[]]
  | c :: rest =>
    let r := splitOnChar sep rest
    if c = sep then [] :: r
    else
      match r with
      | [] => [[c]]
      | g :: gs => (c :: g) :: gs

/-- Numeric value of a nonempty all-digit character list, `none` otherwise. -/
def digitsVal (cs : List Char) : Option Nat :=
  if cs.isEmpty then none
  else if cs.all Char.isDigit then
    some (cs.foldl (fun n c => n * 10 + (c.toNat - Char.toNat (Char.ofNat 48))) 0)
  else none

/-- Parse a `YYYY-MM-DD` date. -/
def parseDate (cs : List Char) : Option DateV :=
  match (splitOnChar (Char.ofNat 45) cs).map digitsVal with
  | [some y, some m, some d] =>
    if 1 ≤ m ∧ m ≤ 12 ∧ 1 ≤ d ∧ d ≤ 31 then some ⟨y, m, d⟩ else none
  | _ => none

/-- Parse a `HH:MM:SS` time of day into seconds. -/
def parseTime (cs : List Char) : Option Nat :=
  match (splitOnChar (Char.ofNat 58) cs).map digitsVal with
  | [some h, some m, some s] =>
    if h < 24 ∧ m < 60 ∧ s < 60 then some (h * 3600 + m * 60 + s) else none
  | _ => none

/-- Model of `pd.to_datetime` on the provider's string shapes: a date-only
string parses to midnight of that date, a `date T time` string to the given
instant, anything else is a parse failure (pandas raises). -/
def pd_to_datetime (s : String) : Option PyTimestamp :=
  match splitOnChar (Char.ofNat 84) s.data with
  | [d] => (parseDate d).map (fun dv => ⟨dv, 0⟩)
  | [d, t] =>
    match parseDate d, parseTime t with
    | some dv, some tv => some ⟨dv, tv⟩
    | _, _ => none
  | _ => none

/-- Exceptions of class `requests.RequestException`: the transport-level
failures caught inside `ElexonAPI.fetch_data`. -/
inductive TransportError
  | connectionError
  | timeout
  | httpStatusError (code : Nat)
deriving DecidableEq

/-- Python exceptions that are not `requests.RequestException` and therefore
propagate out of the core: `KeyError` from a missing dict key or missing frame
column, a date parse error from `pd.to_datetime`, and `TypeError` from
operating on `None`. -/
inductive PyErr
  | keyError (key : String)
  | dateParseError (s : String)
  | typeError (msg : String)
deriving DecidableEq

/-- Fail-fast effectful map: the list-comprehension evaluation order of the
strategies, where the first raising element aborts the whole comprehension. -/
def mapExcept (f : α → Except ε β) : List α → Except ε (List β)
  | [] => .ok []
  | a :: as =>
    match f a with
    | .error e => .error e
    | .ok b =>
      match mapExcept f as with
      | .error e => .error e
      | .ok bs => .ok (b :: bs)

/-- Entry of a temperature payload's `data` list (required fields present;
shapes with these fields missing are outside every claim about this
strategy). -/
structure TempEntry where
  temperature : Int
  temperatureReferenceAverage : Int
  measurementDate : String
deriving DecidableEq

/-- A temperature `RawPayload`: the list under its `data` key. -/
structure TempPayload where
  data : List TempEntry
deriving DecidableEq

/-- Row produced by `TemperatureStrategy.process_data`. -/
structure TempRow where
  temperature : Int
  temperatureReferenceAverage : Int
  timestamp : TSVal
deriving DecidableEq

/-- Source `TemperatureStrategy.process_data`: one row per entry, timestamp
`pd.to_datetime(entry["measurementDate"]).date()`. -/
def TemperatureStrategy.process_data (p : TempPayload) : Except PyErr (List TempRow) :=
  mapExcept
    (fun e =>
      match pd_to_datetime e.measurementDate with
      | none => .error (.dateParseError e.measurementDate)
      | some ts =>
        .ok { temperature := e.temperature,
              temperatureReferenceAverage := e.temperatureReferenceAverage,
              timestamp := TSVal.pyDate ts.date })
    p.data

/-- Nested `{psrType, quantity}` pair of a generation payload entry. -/
structure GenSubEntry where
  psrType : String
  quantity : Int
deriving DecidableEq

/-- Outer entry of a generation payload: its own `startTime` and its own
nested `data` list. -/
structure GenEntry where
  startTime : String
  data : List GenSubEntry
deriving DecidableEq

/-- A generation `RawPayload`: the list under its `data` key. -/
structure GenPayload where
  data : List GenEntry
deriving DecidableEq

/-- Row produced by `GenerationStrategy.process_data`. -/
structure GenRow where
  timestamp : TSVal
  psrType : String
  quantity : Int
deriving DecidableEq

/-- Source `GenerationStrategy.process_data`: one row per nested pair; the outer
entry's `startTime` is parsed (by the comprehension's element expression, so
an outer entry with an empty nested list parses nothing and raises
nothing). -/
def GenerationStrategy.process_data (p : GenPayload) : Except PyErr (List GenRow) :=
  match
    mapExcept
      (fun e =>
        mapExcept
          (fun s =>
            match pd_to_datetime e.startTime with
            | none => .error (.dateParseError e.startTime)
            | some ts =>
              .ok { timestamp := TSVal.pyDateTime ts,
                    psrType := s.psrType, quantity := s.quantity })
          e.data)
      p.data
  with
  | .error e => .error e
  | .ok groups => .ok groups.flatten

/-- Entry of a demand payload.  `startTime` is looked up with a raising
`entry["startTime"]`, so its absence is representable; `initialDemandOutturn`
is looked up with `entry.get`, so its absence flows through as a missing
value. -/
structure DemandEntry where
  startTime : Option String
  initialDemandOutturn : Option Int
deriving DecidableEq

/-- A demand `RawPayload`: the list under its `data` key. -/
structure DemandPayload where
  data : List DemandEntry
deriving DecidableEq

/-- Row produced by `DemandStrategy.process_data`. -/
structure DemandRow where
  timestamp : TSVal
  initialDemandOutturn : Option Int
deriving DecidableEq

/-- Source `DemandStrategy.process_data`: one row per entry; a missing `startTime`
key raises `KeyError`, a malformed one a parse error; a missing
`initialDemandOutturn` passes through as a missing value. -/
def DemandStrategy.process_data (p : DemandPayload) : Except PyErr (List DemandRow) :=
  mapExcept
    (fun e =>
      match e.startTime with
      | none => .error (.keyError "startTime")
      | some s =>
        match pd_to_datetime s with
        | none => .error (.dateParseError s)
        | some ts =>
          .ok { timestamp := TSVal.pyDateTime ts,
                initialDemandOutturn := e.initialDemandOutturn })
    p.data

/-- Row of the first merge's result (`ingest_data.py` lines 51-61): the
generation row's timestamp and fields, plus the matched temperature fields,
null-filled when the left join found no match. -/
structure GTRow where
  timestamp : TSVal
  psrType : String
  quantity : Int
  temperature : Option Int
  temperatureReferenceAverage : Option Int
deriving DecidableEq

/-- Row of the second merge's result: every column except the join key can be
null after the outer join. -/
structure ConsolidatedRow where
  timestamp : TSVal
  psrType : Option String
  quantity : Option Int
  temperature : Option Int
  temperatureReferenceAverage : Option Int
  initialDemandOutturn : Option Int
deriving DecidableEq

/-- First alignment step (`pd.merge(generation, temperature,
left_on=to_datetime(generation.timestamp).dt.date, right_on="timestamp",
how="left")` followed by dropping the right timestamp column and renaming):
each generation row is matched against temperature rows whose date-valued
timestamp equals the generation timestamp's calendar date; unmatched rows get
null temperature fields. -/
def mergeGenTemp (gen : List GenRow) (temp : List TempRow) : List GTRow :=
  gen.flatMap fun g =>
    let ms := temp.filter fun t => decide (t.timestamp = TSVal.pyDate (tsDate g.timestamp))
    if ms.isEmpty then
      [{ timestamp := g.timestamp, psrType := g.psrType, quantity := g.quantity,
         temperature := none, temperatureReferenceAverage := none }]
    else
      ms.map fun t =>
        { timestamp := g.timestamp, psrType := g.psrType, quantity := g.quantity,
          temperature := some t.temperature,
          temperatureReferenceAverage := some t.temperatureReferenceAverage }

/-- Combination of a matched pair in the second merge. -/
def combineGD (a : GTRow) (b : DemandRow) : ConsolidatedRow :=
  { timestamp := a.timestamp, psrType := some a.psrType, quantity := some a.quantity,
    temperature := a.temperature,
    temperatureReferenceAverage := a.temperatureReferenceAverage,
    initialDemandOutturn := b.initialDemandOutturn }

/-- Left row of the second merge with no demand match: demand column
null-filled. -/
def gtOnly (a : GTRow) : ConsolidatedRow :=
  { timestamp := a.timestamp, psrType := some a.psrType, quantity := some a.quantity,
    temperature := a.temperature,
    temperatureReferenceAverage := a.temperatureReferenceAverage,
    initialDemandOutturn := none }

/-- Demand row of the second merge with no left match: left columns
null-filled. -/
def demandOnly (b : DemandRow) : ConsolidatedRow :=
  { timestamp := b.timestamp, psrType := none, quantity := none,
    temperature := none, temperatureReferenceAverage := none,
    initialDemandOutturn := b.initialDemandOutturn }

/-- Second alignment step before null elimination (`pd.merge(merged, demand,
on="timestamp", how="outer")`): matched combinations, plus each side's
unmatched rows with the other side's columns null-filled. -/
def outerMergeOnTimestamp (l : List GTRow) (r : List DemandRow) : List ConsolidatedRow :=
  (l.flatMap fun a =>
    let ms := r.filter fun b => decide (b.timestamp = a.timestamp)
    if ms.isEmpty then [gtOnly a] else ms.map (combineGD a)) ++
  ((r.filter fun b => decide (¬ ∃ a ∈ l, a.timestamp = b.timestamp)).map demandOnly)

/-- Spec-side definition, following the spec's words only: an inner join on
exact timestamp equality, to be compared with `outerMergeOnTimestamp`. -/
def innerMergeOnTimestamp (l : List GTRow) (r : List DemandRow) : List ConsolidatedRow :=
  l.flatMap fun a =>
    (r.filter fun b => decide (b.timestamp = a.timestamp)).map (combineGD a)

/-- A row has a null value in some column (`timestamp`, the join key, is
always populated). -/
def hasNull (c : ConsolidatedRow) : Bool :=
  c.psrType.isNone || c.quantity.isNone || c.temperature.isNone ||
  c.temperatureReferenceAverage.isNone || c.initialDemandOutturn.isNone

/-- The `.dropna()` call: remove every row containing any null value. -/
def dropna (cs : List ConsolidatedRow) : List ConsolidatedRow :=
  cs.filter fun c => ! hasNull c

/-- The first alignment step's join rule in isolation, over an arbitrary
payload type: left join keyed on the calendar date of the left timestamp
against the raw right timestamp, right timestamp column dropped. -/
def leftJoinByDate (l : List (TSVal × α)) (r : List (TSVal × β)) :
    List (TSVal × α × Option β) :=
  l.flatMap fun a =>
    let ms := r.filter fun b => decide (b.1 = TSVal.pyDate (tsDate a.1))
    if ms.isEmpty then [(a.1, a.2, none)] else ms.map fun b => (a.1, a.2, some b.2)

/-- Source `ElexonAPI.fetch_data` (lines 197-211): the whole `try` body with the
transport step abstracted as its outcome.  A `requests.RequestException`
(and only that class) is caught, logged and turned into `None`; an error
raised by the strategy is not caught and propagates. -/
def fetch_data (resp : Except TransportError α) (process : α → Except PyErr β) :
    Except PyErr (Option β) :=
  match resp with
  | .error _ => .ok none
  | .ok d =>
    match process d with
    | .error e => .error e
    | .ok t => .ok (some t)

/-- Python-dict insertion on an ordered association list: update in place if
the key is present, append otherwise. -/
def dictSet (d : List (String × String)) (k v : String) : List (String × String) :=
  if d.any fun kv => kv.1 == k then
    d.map fun kv => if kv.1 == k then (k, v) else kv
  else d ++ [(k, v)]

/-- Python-dict `pop`: the removed value (if any) and the remaining dict. -/
def dictPop (d : List (String × String)) (k : String) :
    Option String × List (String × String) :=
  ((d.find? fun kv => kv.1 == k).map Prod.snd, d.filter fun kv => ! (kv.1 == k))

/-- Query-parameter construction of `ElexonAPI.fetch_data` (lines 187-195):
a dict `from`/`to`/`format`, with `from` and `to` popped and re-added under
the settlement-date names when the endpoint is `demand/outturn`. -/
def url_params (start_date end_date fmt endpoint : String) : List (String × String) :=
  let ps := [("from", start_date), ("to", end_date), ("format", fmt)]
  if endpoint == "demand/outturn" then
    let p1 := dictPop ps "from"
    let ps1 := dictSet p1.2 "settlementDateFrom" (p1.1.getD "")
    let p2 := dictPop ps1 "to"
    dictSet p2.2 "settlementDateTo" (p2.1.getD "")
  else ps

/-- Alignment statements of `ingest_elexon_data` (`ingest_data.py` lines
51-66) on the three fetch results, which the source uses without checking for
`None`.  A `None` table raises `TypeError` where the source would (the left
key expression subscripts `None`; `pd.merge` rejects a `None` operand); a
table whose row list is empty became a `DataFrame` with no columns, so keying
it on `timestamp` raises `KeyError`. -/
def runAlign (gen : Option (List GenRow)) (temp : Option (List TempRow))
    (dem : Option (List DemandRow)) : Except PyErr (List ConsolidatedRow) :=
  match gen with
  | none => .error (.typeError "NoneType object is not subscriptable")
  | some g =>
    if g.isEmpty then .error (.keyError "timestamp")
    else
      match temp with
      | none => .error (.typeError "can only merge Series or DataFrame objects")
      | some t =>
        if t.isEmpty then .error (.keyError "timestamp")
        else
          let gt := mergeGenTemp g t
          match dem with
          | none => .error (.typeError "can only merge Series or DataFrame objects")
          | some d =>
            if d.isEmpty then .error (.keyError "timestamp")
            else .ok (dropna (outerMergeOnTimestamp gt d))

/-- Outcome of one orchestrator run, with a flag recording whether control
reached the alignment statement (in the source it always does: nothing
between the three fetches and the first `pd.merge` inspects the fetch
results). -/
structure RunOutcome where
  alignmentAttempted : Bool
  result : Except PyErr (List ConsolidatedRow)
deriving DecidableEq

/-- The orchestrator `ingest_elexon_data` from the three fetch results
onward: the alignment statement is executed unconditionally, and a fetch that
returned `None` makes it raise. -/
def ingest_elexon_data (temp : Option (List TempRow)) (gen : Option (List GenRow))
    (dem : Option (List DemandRow)) : RunOutcome :=
  { alignmentAttempted := true, result := runAlign gen temp dem }

/-- The normalize-and-align pipeline on three successfully fetched payloads:
each strategy runs (raising errors propagate), then the alignment runs on the
three tables. -/
def pipeline (tp : TempPayload) (gp : GenPayload) (dp : DemandPayload) :
    Except PyErr (List ConsolidatedRow) := do
  let temp ← TemperatureStrategy.process_data tp
  let gen ← GenerationStrategy.process_data gp
  let dem ← DemandStrategy.process_data dp
  runAlign (some gen) (some temp) (some dem)

example :
    pipeline
      ⟨[{ temperature := 20, temperatureReferenceAverage := 18,
          measurementDate := "2023-01-01" }]⟩
      ⟨[{ startTime := "2023-01-01T00:00:00",
          data := [{ psrType := "CCGT", quantity := 100 }] }]⟩
      ⟨[{ startTime := some "2023-01-01T00:00:00",
          initialDemandOutturn := some 5000 }]⟩ =
    .ok [{ timestamp := TSVal.pyDateTime ⟨⟨2023, 1, 1⟩, 0⟩,
           psrType := some "CCGT", quantity := some 100,
           temperature := some 20, temperatureReferenceAverage := some 18,
           initialDemandOutturn := some 5000 }] := by decide

example :
    TemperatureStrategy.process_data
      ⟨[{ temperature := 20, temperatureReferenceAverage := 18,
          measurementDate := "2023-01-01" }]⟩ =
    .ok [{ temperature := 20, temperatureReferenceAverage := 18,
           timestamp := TSVal.pyDate ⟨2023, 1, 1⟩ }] := by decide

example :
    GenerationStrategy.process_data
      ⟨[{ startTime := "2023-01-01T00:00:00",
          data := [{ psrType := "CCGT", quantity := 100 }] }]⟩ =
    .ok [{ timestamp := TSVal.pyDateTime ⟨⟨2023, 1, 1⟩, 0⟩,
           psrType := "CCGT", quantity := 100 }] := by decide

example :
    DemandStrategy.process_data
      ⟨[{ startTime := some "2023-01-01T00:00:00",
          initialDemandOutturn := some 5000 }]⟩ =
    .ok [{ timestamp := TSVal.pyDateTime ⟨⟨2023, 1, 1⟩, 0⟩,
           initialDemandOutturn := some 5000 }] := by decide


theorem mapExcept_ok_of_forall_mem (f : α → Except ε β) (g : α → β) :
    ∀ l : List α, (∀ a ∈ l, f a = .ok (g a)) → mapExcept f l = .ok (l.map g) := by
  intro l h
  induction l with
  | nil => rfl
  | cons a as ih =>
    have ha := h a (List.mem_cons_self a as)
    have has : ∀ x ∈ as, f x = .ok (g x) := fun x hx => h x (List.mem_cons_of_mem _ hx)
    simp [mapExcept, ha, ih has]

theorem mapExcept_ok_forall₂ (f : α → Except ε β) :
    ∀ {l : List α} {ys : List β}, mapExcept f l = .ok ys →
      List.Forall₂ (fun a b => f a = .ok b) l ys := by
  intro l
  induction l with
  | nil =>
    intro ys h
    simp only [mapExcept] at h
    cases h
    exact List.Forall₂.nil
  | cons a as ih =>
    intro ys h
    simp only [mapExcept] at h
    cases hfa : f a with
    | error e => rw [hfa] at h; cases h
    | ok b =>
      rw [hfa] at h
      cases hrec : mapExcept f as with
      | error e => rw [hrec] at h; cases h
      | ok bs =>
        rw [hrec] at h
        cases h
        exact List.Forall₂.cons hfa (ih hrec)

theorem mapExcept_error_of_mem (f : α → Except ε β) {l : List α} {a : α} {e : ε}
    (ha : a ∈ l) (hfa : f a = .error e) : ∃ e', mapExcept f l = .error e' := by
  induction l with
  | nil => cases ha
  | cons b bs ih =>
    rcases List.mem_cons.mp ha with h | h
    · subst h
      exact ⟨e, by simp [mapExcept, hfa]⟩
    · cases hfb : f b with
      | error e2 => exact ⟨e2, by simp [mapExcept, hfb]⟩
      | ok v =>
        rcases ih h with ⟨e', he'⟩
        exact ⟨e', by simp [mapExcept, hfb, he']⟩

theorem flatMap_congr_mem {f g : α → List β} :
    ∀ l : List α, (∀ a ∈ l, f a = g a) → l.flatMap f = l.flatMap g := by
  intro l h
  induction l with
  | nil => rfl
  | cons a as ih =>
    simp only [List.flatMap_cons]
    rw [h a (List.mem_cons_self a as), ih fun x hx => h x (List.mem_cons_of_mem _ hx)]

theorem map_flatMap_singleton {f : α → List β} {proj : β → α} :
    ∀ l : List α, (∀ a ∈ l, (f a).map proj = [a]) → (l.flatMap f).map proj = l := by
  intro l h
  induction l with
  | nil => rfl
  | cons a as ih =>
    simp only [List.flatMap_cons, List.map_append]
    rw [h a (List.mem_cons_self a as), ih fun x hx => h x (List.mem_cons_of_mem _ hx)]
    rfl

theorem filter_key_length_le_one {α : Type} {l : List (TSVal × α)}
    (h : (l.map Prod.fst).Nodup) (c : TSVal) :
    (l.filter fun b => decide (b.1 = c)).length ≤ 1 := by
  induction l with
  | nil => simp
  | cons a as ih =>
    simp only [List.map_cons, List.nodup_cons] at h
    by_cases hc : a.1 = c
    · have hnil : as.filter (fun b => decide (b.1 = c)) = [] := by
        rw [List.filter_eq_nil_iff]
        intro b hb
        simp only [decide_eq_true_eq]
        intro hbc
        exact h.1 (hc ▸ hbc ▸ List.mem_map_of_mem Prod.fst hb)
      simp [List.filter_cons, hc, hnil]
    · simpa [List.filter_cons, hc] using ih h.2

theorem temp_ok_timestamps {p : TempPayload} {rows : List TempRow}
    (h : TemperatureStrategy.process_data p = .ok rows) :
    ∃ ds : List DateV,
      p.data.map (fun e => (pd_to_datetime e.measurementDate).map PyTimestamp.date) =
        ds.map some ∧
      rows.map TempRow.timestamp = ds.map TSVal.pyDate := by
  have h2 := mapExcept_ok_forall₂ _ h
  clear h
  generalize hes : p.data = es at h2 ⊢
  clear hes
  induction h2 with
  | nil => exact ⟨[], rfl, rfl⟩
  | @cons e r es rs he _ ih =>
    rcases ih with ⟨ds, h1, h2⟩
    cases hpd : pd_to_datetime e.measurementDate with
    | none => rw [hpd] at he; cases he
    | some ts =>
      rw [hpd] at he
      cases he
      exact ⟨ts.date :: ds, by simp [hpd, h1], by simp [h2]⟩

theorem demand_ok_timestamps {p : DemandPayload} {rows : List DemandRow}
    (h : DemandStrategy.process_data p = .ok rows) :
    ∃ tss : List PyTimestamp,
      p.data.map (fun e => e.startTime.bind pd_to_datetime) = tss.map some ∧
      rows.map DemandRow.timestamp = tss.map TSVal.pyDateTime := by
  have h2 := mapExcept_ok_forall₂ _ h
  clear h
  generalize hes : p.data = es at h2 ⊢
  clear hes
  induction h2 with
  | nil => exact ⟨[], rfl, rfl⟩
  | @cons e r es rs he _ ih =>
    rcases ih with ⟨tss, h1, h2⟩
    cases hst : e.startTime with
    | none => rw [hst] at he; cases he
    | some s =>
      simp only [hst] at he
      cases hpd : pd_to_datetime s with
      | none => rw [hpd] at he; cases he
      | some ts =>
        rw [hpd] at he
        cases he
        exact ⟨ts :: tss, by simp [hst, hpd, h1], by simp [h2]⟩

/-- C7: the claim as stated is false: nothing deduplicates timestamps, so a
temperature payload listing the same `measurementDate` twice yields a table
with two rows carrying the same timestamp. -/
theorem temperature_duplicate_timestamp_counterexample :
    TemperatureStrategy.process_data
        ⟨[⟨20, 18, "2023-01-01"⟩, ⟨21, 19, "2023-01-01"⟩]⟩ =
      .ok [⟨20, 18, TSVal.pyDate ⟨2023, 1, 1⟩⟩, ⟨21, 19, TSVal.pyDate ⟨2023, 1, 1⟩⟩] ∧
    ¬ (([⟨20, 18, TSVal.pyDate ⟨2023, 1, 1⟩⟩, ⟨21, 19, TSVal.pyDate ⟨2023, 1, 1⟩⟩] :
        List TempRow).map TempRow.timestamp).Nodup := by
  decide

/-- C7 (amended): a Temperature or Demand table has at most one row per
timestamp provided the payload's entries carry pairwise-distinct keys
(distinct parsed dates for Temperature, distinct parsed start instants for
Demand) — the strategies emit one row per entry and never deduplicate — while
a Generation table may contain several rows sharing one timestamp (one per
`psrType`). -/
theorem timestamp_uniqueness_per_strategy :
    (∀ (p : TempPayload) (rows : List TempRow),
       TemperatureStrategy.process_data p = .ok rows →
       (p.data.map fun e => (pd_to_datetime e.measurementDate).map PyTimestamp.date).Nodup →
       (rows.map TempRow.timestamp).Nodup)
  ∧ (∀ (p : DemandPayload) (rows : List DemandRow),
       DemandStrategy.process_data p = .ok rows →
       (p.data.map fun e => e.startTime.bind pd_to_datetime).Nodup →
       (rows.map DemandRow.timestamp).Nodup)
  ∧ (∃ (p : GenPayload) (rows : List GenRow),
       GenerationStrategy.process_data p = .ok rows ∧
       ¬ (rows.map GenRow.timestamp).Nodup) := by
  refine ⟨?_, ?_, ?_⟩
  · intro p rows h hnd
    rcases temp_ok_timestamps h with ⟨ds, h1, h2⟩
    rw [h1] at hnd
    rw [h2]
    exact (hnd.of_map _).map fun a b hab => by injection hab
  · intro p rows h hnd
    rcases demand_ok_timestamps h with ⟨tss, h1, h2⟩
    rw [h1] at hnd
    rw [h2]
    exact (hnd.of_map _).map fun a b hab => by injection hab
  · exact ⟨⟨[⟨"2023-01-01T00:00:00", [⟨"CCGT", 100⟩, ⟨"WIND", 50⟩]⟩]⟩,
      [⟨TSVal.pyDateTime ⟨⟨2023, 1, 1⟩, 0⟩, "CCGT", 100⟩,
       ⟨TSVal.pyDateTime ⟨⟨2023, 1, 1⟩, 0⟩, "WIND", 50⟩], by decide, by decide⟩

theorem timestamp_uniqueness_per_strategy_witness :
    TemperatureStrategy.process_data ⟨[⟨20, 18, "2023-01-01"⟩, ⟨15, 14, "2023-01-02"⟩]⟩ =
      .ok [⟨20, 18, TSVal.pyDate ⟨2023, 1, 1⟩⟩, ⟨15, 14, TSVal.pyDate ⟨2023, 1, 2⟩⟩] ∧
    (([⟨20, 18, TSVal.pyDate ⟨2023, 1, 1⟩⟩, ⟨15, 14, TSVal.pyDate ⟨2023, 1, 2⟩⟩] :
      List TempRow).map TempRow.timestamp).Nodup :=
  ⟨by decide,
   timestamp_uniqueness_per_strategy.1 ⟨[⟨20, 18, "2023-01-01"⟩, ⟨15, 14, "2023-01-02"⟩]⟩
     _ (by decide) (by decide)⟩

/-- C8: the claim as stated is false: on a table with a repeated date-valued
timestamp (producible by `TemperatureStrategy` from a payload repeating one
`measurementDate`), merging the table with itself under the left-join-by-date
rule matches each row against both duplicates, yielding four rows instead of
two, so no renaming or projection of columns recovers the original table. -/
theorem self_left_join_duplicate_counterexample :
    TemperatureStrategy.process_data
        ⟨[⟨20, 18, "2023-01-01"⟩, ⟨21, 19, "2023-01-01"⟩]⟩ =
      .ok [⟨20, 18, TSVal.pyDate ⟨2023, 1, 1⟩⟩, ⟨21, 19, TSVal.pyDate ⟨2023, 1, 1⟩⟩] ∧
    ¬ ((leftJoinByDate
          [(TSVal.pyDate ⟨2023, 1, 1⟩, ((20 : Int), (18 : Int))),
           (TSVal.pyDate ⟨2023, 1, 1⟩, ((21 : Int), (19 : Int)))]
          [(TSVal.pyDate ⟨2023, 1, 1⟩, ((20 : Int), (18 : Int))),
           (TSVal.pyDate ⟨2023, 1, 1⟩, ((21 : Int), (19 : Int)))]).map
        (fun x => (x.1, x.2.1)) =
      [(TSVal.pyDate ⟨2023, 1, 1⟩, ((20 : Int), (18 : Int))),
       (TSVal.pyDate ⟨2023, 1, 1⟩, ((21 : Int), (19 : Int)))]) := by
  decide

/-- C8 (amended): for a table whose timestamps are pairwise distinct, merging
it with itself under the left-join-by-date rule yields exactly one output row
per input row, and dropping the appended right-side payload column (the join
result keeps the left columns unchanged) recovers the table exactly. -/
theorem self_left_join_by_date_identity {α : Type} (T : List (TSVal × α))
    (hnd : (T.map Prod.fst).Nodup) :
    (leftJoinByDate T T).map (fun x => (x.1, x.2.1)) = T := by
  unfold leftJoinByDate
  apply map_flatMap_singleton
  intro a _
  dsimp only
  rcases hF : T.filter (fun b => decide (b.1 = TSVal.pyDate (tsDate a.1))) with _ | ⟨b, ms⟩
  · rw [hF]
    simp
  · have hlen := filter_key_length_le_one hnd (TSVal.pyDate (tsDate a.1))
    rw [hF] at hlen
    have hms : ms = [] := by
      cases ms with
      | nil => rfl
      | cons x xs => simp at hlen
    subst hms
    rw [hF]
    simp

theorem self_left_join_by_date_identity_witness :
    (leftJoinByDate
        [(TSVal.pyDateTime ⟨⟨2023, 1, 1⟩, 0⟩, (100 : Int)), (TSVal.pyDate ⟨2023, 1, 1⟩, (50 : Int))]
        [(TSVal.pyDateTime ⟨⟨2023, 1, 1⟩, 0⟩, (100 : Int)), (TSVal.pyDate ⟨2023, 1, 1⟩, (50 : Int))]).map
      (fun x => (x.1, x.2.1)) =
    [(TSVal.pyDateTime ⟨⟨2023, 1, 1⟩, 0⟩, (100 : Int)), (TSVal.pyDate ⟨2023, 1, 1⟩, (50 : Int))] :=
  self_left_join_by_date_identity
    [(TSVal.pyDateTime ⟨⟨2023, 1, 1⟩, 0⟩, (100 : Int)), (TSVal.pyDate ⟨2023, 1, 1⟩, (50 : Int))]
    (by decide)

/-- C1: the second alignment step — outer join on exact timestamp equality
followed by removal of every row containing a null — produces exactly the
rows of an inner join followed by the same null elimination, and every
surviving row is fully populated with its timestamp present on both sides of
the join. -/
theorem outer_join_dropna_equals_inner_join_dropna (l : List GTRow) (r : List DemandRow) :
    dropna (outerMergeOnTimestamp l r) = dropna (innerMergeOnTimestamp l r)
  ∧ ∀ c ∈ dropna (outerMergeOnTimestamp l r),
      hasNull c = false ∧
      c.timestamp ∈ l.map GTRow.timestamp ∧
      c.timestamp ∈ r.map DemandRow.timestamp := by
  have heq : dropna (outerMergeOnTimestamp l r) = dropna (innerMergeOnTimestamp l r) := by
    unfold dropna outerMergeOnTimestamp innerMergeOnTimestamp
    rw [List.filter_append]
    have hright :
        ((r.filter fun b => decide (¬ ∃ a ∈ l, a.timestamp = b.timestamp)).map demandOnly).filter
          (fun c => ! hasNull c) = [] := by
      rw [List.filter_map]
      have hin :
          List.filter ((fun c => ! hasNull c) ∘ demandOnly)
            (r.filter fun b => decide (¬ ∃ a ∈ l, a.timestamp = b.timestamp)) = [] := by
        rw [List.filter_eq_nil_iff]
        intro b _
        simp [Function.comp, hasNull, demandOnly]
      rw [hin, List.map_nil]
    rw [hright, List.append_nil, List.filter_flatMap, List.filter_flatMap]
    apply flatMap_congr_mem
    intro a _
    rcases hF : r.filter (fun b => decide (b.timestamp = a.timestamp)) with _ | ⟨b, ms⟩
    · rw [hF]
      simp [hasNull, gtOnly]
    · rw [hF]
      simp
  refine ⟨heq, ?_⟩
  intro c hc
  rw [heq] at hc
  unfold dropna at hc
  rcases List.mem_filter.mp hc with ⟨hcin, hq⟩
  unfold innerMergeOnTimestamp at hcin
  rcases List.mem_flatMap.mp hcin with ⟨a, hal, hc2⟩
  rcases List.mem_map.mp hc2 with ⟨b, hbf, rfl⟩
  rcases List.mem_filter.mp hbf with ⟨hbr, hbts⟩
  have hbts' : b.timestamp = a.timestamp := of_decide_eq_true hbts
  refine ⟨by simpa using hq, ?_, ?_⟩
  · exact List.mem_map_of_mem GTRow.timestamp hal
  · have : (combineGD a b).timestamp = b.timestamp := by
      simp [combineGD, hbts']
    rw [this]
    exact List.mem_map_of_mem DemandRow.timestamp hbr

theorem outer_join_dropna_equals_inner_join_dropna_witness :
    hasNull { timestamp := TSVal.pyDateTime ⟨⟨2023, 1, 1⟩, 0⟩,
              psrType := some "CCGT", quantity := some 100,
              temperature := some 20, temperatureReferenceAverage := some 18,
              initialDemandOutturn := some 5000 } = false ∧
    (TSVal.pyDateTime ⟨⟨2023, 1, 1⟩, 0⟩ ∈
      ([{ timestamp := TSVal.pyDateTime ⟨⟨2023, 1, 1⟩, 0⟩, psrType := "CCGT",
          quantity := 100, temperature := some 20,
          temperatureReferenceAverage := some 18 }] : List GTRow).map GTRow.timestamp) ∧
    (TSVal.pyDateTime ⟨⟨2023, 1, 1⟩, 0⟩ ∈
      ([{ timestamp := TSVal.pyDateTime ⟨⟨2023, 1, 1⟩, 0⟩,
          initialDemandOutturn := some 5000 }] : List DemandRow).map DemandRow.timestamp) :=
  (outer_join_dropna_equals_inner_join_dropna
    [{ timestamp := TSVal.pyDateTime ⟨⟨2023, 1, 1⟩, 0⟩, psrType := "CCGT",
       quantity := 100, temperature := some 20,
       temperatureReferenceAverage := some 18 }]
    [{ timestamp := TSVal.pyDateTime ⟨⟨2023, 1, 1⟩, 0⟩,
       initialDemandOutturn := some 5000 }]).2
    { timestamp := TSVal.pyDateTime ⟨⟨2023, 1, 1⟩, 0⟩,
      psrType := some "CCGT", quantity := some 100,
      temperature := some 20, temperatureReferenceAverage := some 18,
      initialDemandOutturn := some 5000 }
    (by decide)

/-- C2: the claim as stated is false: the orchestrator never inspects the
fetch results, so with the Temperature fetch returning the Failure signal the
alignment statement is still entered (the fatal `TypeError` is raised by the
merge itself, not by a guard before it). -/
theorem fetch_failure_alignment_still_attempted :
    (ingest_elexon_data none
        (some [⟨TSVal.pyDateTime ⟨⟨2023, 1, 1⟩, 0⟩, "CCGT", 100⟩])
        (some [⟨TSVal.pyDateTime ⟨⟨2023, 1, 1⟩, 0⟩, some 5000⟩])).alignmentAttempted = true ∧
    (ingest_elexon_data none
        (some [⟨TSVal.pyDateTime ⟨⟨2023, 1, 1⟩, 0⟩, "CCGT", 100⟩])
        (some [⟨TSVal.pyDateTime ⟨⟨2023, 1, 1⟩, 0⟩, some 5000⟩])).result =
      .error (PyErr.typeError "can only merge Series or DataFrame objects") := by
  decide

/-- C2 (amended): any Failure from a fetch step is fatal to the run — the
orchestrator never substitutes empty data and never produces a consolidated
table from the remaining sources — but the error surfaces when the unchecked
`None` reaches the alignment step, which raises, rather than before the
alignment is attempted. -/
theorem fetch_failure_fatal (temp : Option (List TempRow)) (gen : Option (List GenRow))
    (dem : Option (List DemandRow)) (h : temp = none ∨ gen = none ∨ dem = none) :
    ∃ e, (ingest_elexon_data temp gen dem).result = Except.error e := by
  unfold ingest_elexon_data runAlign
  rcases gen with _ | g
  · exact ⟨_, rfl⟩
  rcases hg : g.isEmpty
  case true => exact ⟨PyErr.keyError "timestamp", by simp [hg]⟩
  simp only [hg]
  rcases temp with _ | t
  · exact ⟨_, rfl⟩
  rcases ht : t.isEmpty
  case true => exact ⟨PyErr.keyError "timestamp", by simp [ht]⟩
  simp only [ht]
  rcases dem with _ | d
  · exact ⟨_, rfl⟩
  · rcases h with h | h | h <;> cases h

theorem fetch_failure_fatal_witness :
    ∃ e, (ingest_elexon_data none
        (some [⟨TSVal.pyDateTime ⟨⟨2023, 1, 1⟩, 0⟩, "CCGT", 100⟩])
        (some [⟨TSVal.pyDateTime ⟨⟨2023, 1, 1⟩, 0⟩, some 5000⟩])).result = Except.error e :=
  fetch_failure_fatal none
    (some [⟨TSVal.pyDateTime ⟨⟨2023, 1, 1⟩, 0⟩, "CCGT", 100⟩])
    (some [⟨TSVal.pyDateTime ⟨⟨2023, 1, 1⟩, 0⟩, some 5000⟩])
    (Or.inl rfl)

/-- C3: at the end-to-end input whose Demand payload has an empty data list,
the pipeline does not produce a zero-row table: the empty demand record list
becomes a `DataFrame` with no columns, so the second merge, keyed on the
`timestamp` column, raises `KeyError` and the run aborts (the demand fetch
itself succeeded with an empty table). -/
theorem empty_demand_payload_raises_keyerror :
    pipeline
      ⟨[⟨20, 18, "2023-01-01"⟩]⟩
      ⟨[⟨"2023-01-01T00:00:00", [⟨"CCGT", 100⟩]⟩]⟩
      ⟨[]⟩ = .error (PyErr.keyError "timestamp") ∧
    DemandStrategy.process_data ⟨[]⟩ = .ok [] := by
  decide

/-- C4: `fetch_data` yields the absence-of-data signal `None` exactly when the
transport step fails (connection error, timeout, or non-2xx status turned
into an exception by `raise_for_status`), in which case nothing escapes to
the caller; an error raised while processing the payload is not caught and
propagates out of `fetch_data`. -/
theorem fetch_data_error_policy {α β : Type} (resp : Except TransportError α)
    (process : α → Except PyErr β) :
    (fetch_data resp process = .ok none ↔ ∃ e, resp = .error e)
  ∧ (∀ d e, resp = .ok d → process d = .error e → fetch_data resp process = .error e) := by
  constructor
  · constructor
    · intro h
      cases resp with
      | error e => exact ⟨e, rfl⟩
      | ok d =>
        exfalso
        have h2 : (match process d with
            | Except.error e => (Except.error e : Except PyErr (Option β))
            | Except.ok t => Except.ok (some t)) = Except.ok none := h
        cases hp : process d with
        | error e => rw [hp] at h2; cases h2
        | ok t => rw [hp] at h2; cases h2
    · rintro ⟨e, rfl⟩
      rfl
  · rintro d e rfl hp
    show (match process d with
        | Except.error e => (Except.error e : Except PyErr (Option β))
        | Except.ok t => Except.ok (some t)) = Except.error e
    rw [hp]

theorem fetch_data_error_policy_witness :
    fetch_data (Except.error TransportError.timeout)
      DemandStrategy.process_data = .ok none ∧
    fetch_data (Except.ok (⟨[⟨some "nonsense", some 5000⟩]⟩ : DemandPayload))
      DemandStrategy.process_data = .error (PyErr.dateParseError "nonsense") :=
  ⟨(fetch_data_error_policy (Except.error TransportError.timeout)
      DemandStrategy.process_data).1.mpr ⟨TransportError.timeout, rfl⟩,
   (fetch_data_error_policy (Except.ok (⟨[⟨some "nonsense", some 5000⟩]⟩ : DemandPayload))
      DemandStrategy.process_data).2 _ _ rfl (by decide)⟩

/-- C9: for every configured date range and format, the request carries
exactly the parameters `from`, `to` and `format` — except for the
`demand/outturn` endpoint, whose parameters are `settlementDateFrom` and
`settlementDateTo` (carrying the same start and end dates) together with
`format`, with the generic `from`/`to` keys absent. -/
theorem url_params_per_endpoint (s e f ep : String) :
    (¬ ep = "demand/outturn" →
      url_params s e f ep = [("from", s), ("to", e), ("format", f)])
  ∧ (ep = "demand/outturn" →
      url_params s e f ep =
        [("format", f), ("settlementDateFrom", s), ("settlementDateTo", e)]) := by
  constructor
  · intro h
    have hb : (ep == "demand/outturn") = false := beq_eq_false_iff_ne.mpr h
    simp [url_params, hb]
  · intro h
    subst h
    rfl

theorem url_params_per_endpoint_witness :
    url_params "2023-01-01" "2023-01-31" "json" "temperature" =
      [("from", "2023-01-01"), ("to", "2023-01-31"), ("format", "json")] ∧
    url_params "2023-01-01" "2023-01-31" "json" "demand/outturn" =
      [("format", "json"), ("settlementDateFrom", "2023-01-01"),
       ("settlementDateTo", "2023-01-31")] :=
  ⟨(url_params_per_endpoint "2023-01-01" "2023-01-31" "json" "temperature").1 (by decide),
   (url_params_per_endpoint "2023-01-01" "2023-01-31" "json" "demand/outturn").2 rfl⟩

/-- C5: on a valid Generation payload (every outer `startTime` parses), the
strategy succeeds with one row per nested pair, in payload order: the table
is the concatenation, over the outer entries, of that entry's nested pairs
turned into rows stamped with the entry's parsed `startTime`, so the row
count is the sum of the nested list lengths. -/
theorem generation_process_row_structure (p : GenPayload)
    (hp : ∀ e ∈ p.data, (pd_to_datetime e.startTime).isSome) :
    GenerationStrategy.process_data p =
      .ok (p.data.flatMap fun e => e.data.map fun s =>
        { timestamp := TSVal.pyDateTime ((pd_to_datetime e.startTime).getD default),
          psrType := s.psrType, quantity := s.quantity })
  ∧ (p.data.flatMap fun e => e.data.map fun s =>
      ({ timestamp := TSVal.pyDateTime ((pd_to_datetime e.startTime).getD default),
         psrType := s.psrType, quantity := s.quantity } : GenRow)).length =
      (p.data.map fun e => e.data.length).sum := by
  constructor
  · have houter : ∀ e ∈ p.data,
        mapExcept (fun s =>
          match pd_to_datetime e.startTime with
          | none => Except.error (PyErr.dateParseError e.startTime)
          | some ts =>
            Except.ok { timestamp := TSVal.pyDateTime ts,
                        psrType := s.psrType, quantity := s.quantity }) e.data =
          .ok (e.data.map fun s =>
            ({ timestamp := TSVal.pyDateTime ((pd_to_datetime e.startTime).getD default),
               psrType := s.psrType, quantity := s.quantity } : GenRow)) := by
      intro e he
      rcases Option.isSome_iff_exists.mp (hp e he) with ⟨ts, hts⟩
      apply mapExcept_ok_of_forall_mem
      intro s _
      rw [hts]
      rfl
    unfold GenerationStrategy.process_data
    rw [mapExcept_ok_of_forall_mem _ _ p.data houter]
    rw [List.flatMap_def]
  · rw [List.length_flatMap]
    congr 1
    simp

theorem generation_process_row_structure_witness :
    GenerationStrategy.process_data
      ⟨[⟨"2023-01-01T00:00:00", [⟨"CCGT", 100⟩, ⟨"WIND", 50⟩]⟩,
        ⟨"2023-01-02T00:00:00", [⟨"CCGT", 90⟩]⟩]⟩ =
      .ok ((⟨[⟨"2023-01-01T00:00:00", [⟨"CCGT", 100⟩, ⟨"WIND", 50⟩]⟩,
        ⟨"2023-01-02T00:00:00", [⟨"CCGT", 90⟩]⟩]⟩ : GenPayload).data.flatMap fun e =>
          e.data.map fun s =>
            { timestamp := TSVal.pyDateTime ((pd_to_datetime e.startTime).getD default),
              psrType := s.psrType, quantity := s.quantity }) :=
  (generation_process_row_structure
    ⟨[⟨"2023-01-01T00:00:00", [⟨"CCGT", 100⟩, ⟨"WIND", 50⟩]⟩,
      ⟨"2023-01-02T00:00:00", [⟨"CCGT", 90⟩]⟩]⟩ (by decide)).1

/-- C6: on a Demand payload whose entries all carry a parseable `startTime`,
the strategy succeeds with exactly one row per entry in order, the timestamp
parsed from `startTime` and `initialDemandOutturn` copied as is — in
particular an entry missing that field yields a row with the value absent,
not an error — while an entry with `startTime` missing or unparseable makes
the strategy raise instead of defaulting. -/
theorem demand_process_row_structure (p : DemandPayload) :
    ((∀ e ∈ p.data, ∃ s ts, e.startTime = some s ∧ pd_to_datetime s = some ts) →
      ∃ rows, DemandStrategy.process_data p = .ok rows ∧
        rows.length = p.data.length ∧
        List.Forall₂ (fun (e : DemandEntry) (r : DemandRow) =>
          ∃ s ts, e.startTime = some s ∧ pd_to_datetime s = some ts ∧
            r = ⟨TSVal.pyDateTime ts, e.initialDemandOutturn⟩) p.data rows)
  ∧ ((∃ e ∈ p.data, e.startTime = none ∨
        ∃ s, e.startTime = some s ∧ pd_to_datetime s = none) →
      ∃ err, DemandStrategy.process_data p = .error err) := by
  constructor
  · intro hv
    refine ⟨p.data.map (fun e =>
      ⟨TSVal.pyDateTime ((e.startTime.bind pd_to_datetime).getD default),
       e.initialDemandOutturn⟩), ?_, by simp, ?_⟩
    · apply mapExcept_ok_of_forall_mem
      intro e he
      rcases hv e he with ⟨s, ts, hs, hts⟩
      rw [hs]
      simp only []
      rw [hts]
      simp [hs, hts]
    · rw [List.forall₂_map_right_iff]
      rw [List.forall₂_same]
      intro e he
      rcases hv e he with ⟨s, ts, hs, hts⟩
      exact ⟨s, ts, hs, hts, by simp [hs, hts]⟩
  · rintro ⟨e, he, hbad⟩
    rcases hst : e.startTime with _ | s
    · apply mapExcept_error_of_mem _ he
      rw [hst]
    · rcases hbad with h | ⟨s2, hs2, hpd2⟩
      · rw [hst] at h; cases h
      · rw [hst] at hs2
        cases hs2
        apply mapExcept_error_of_mem _ he
        simp only [hst]
        rw [hpd2]

theorem demand_process_row_structure_witness :
    (∃ rows, DemandStrategy.process_data
        ⟨[⟨some "2023-01-01T00:00:00", none⟩, ⟨some "2023-01-01T00:30:00", some 5000⟩]⟩ =
          .ok rows ∧
      rows.length = 2 ∧
      List.Forall₂ (fun (e : DemandEntry) (r : DemandRow) =>
          ∃ s ts, e.startTime = some s ∧ pd_to_datetime s = some ts ∧
            r = ⟨TSVal.pyDateTime ts, e.initialDemandOutturn⟩)
        [⟨some "2023-01-01T00:00:00", none⟩, ⟨some "2023-01-01T00:30:00", some 5000⟩] rows) ∧
    (∃ err, DemandStrategy.process_data ⟨[⟨none, some 5000⟩]⟩ = .error err) :=
  ⟨(demand_process_row_structure
      ⟨[⟨some "2023-01-01T00:00:00", none⟩, ⟨some "2023-01-01T00:30:00", some 5000⟩]⟩).1
      (by
        intro e he
        simp only [List.mem_cons, List.not_mem_nil, or_false] at he
        rcases he with rfl | rfl
        · exact ⟨"2023-01-01T00:00:00", ⟨⟨2023, 1, 1⟩, 0⟩, rfl, by decide⟩
        · exact ⟨"2023-01-01T00:30:00", ⟨⟨2023, 1, 1⟩, 1800⟩, rfl, by decide⟩),
   (demand_process_row_structure ⟨[⟨none, some 5000⟩]⟩).2
      ⟨⟨none, some 5000⟩, by decide, Or.inl rfl⟩⟩

/-- C10: every strategy emits its rows in payload order: Temperature and
Demand rows correspond index-by-index to the entries of the payload's data
list, and Generation rows come grouped by outer entry — each group is that
entry's nested pairs in order, with the groups concatenated in outer-list
order. -/
theorem process_data_preserves_order :
    (∀ (p : TempPayload) (rows : List TempRow),
       TemperatureStrategy.process_data p = .ok rows →
       List.Forall₂ (fun (e : TempEntry) (r : TempRow) =>
         ∃ ts, pd_to_datetime e.measurementDate = some ts ∧
           r = ⟨e.temperature, e.temperatureReferenceAverage, TSVal.pyDate ts.date⟩)
         p.data rows)
  ∧ (∀ (p : DemandPayload) (rows : List DemandRow),
       DemandStrategy.process_data p = .ok rows →
       List.Forall₂ (fun (e : DemandEntry) (r : DemandRow) =>
         ∃ s ts, e.startTime = some s ∧ pd_to_datetime s = some ts ∧
           r = ⟨TSVal.pyDateTime ts, e.initialDemandOutturn⟩) p.data rows)
  ∧ (∀ (p : GenPayload) (rows : List GenRow),
       GenerationStrategy.process_data p = .ok rows →
       ∃ groups : List (List GenRow),
         rows = groups.flatten ∧
         List.Forall₂ (fun (e : GenEntry) (grp : List GenRow) =>
           (e.data = [] ∧ grp = []) ∨
           ∃ ts, pd_to_datetime e.startTime = some ts ∧
             grp = e.data.map fun s =>
               ⟨TSVal.pyDateTime ts, s.psrType, s.quantity⟩) p.data groups) := by
  refine ⟨?_, ?_, ?_⟩
  · intro p rows h
    apply (mapExcept_ok_forall₂ _ h).imp
    intro e r he
    cases hpd : pd_to_datetime e.measurementDate with
    | none => rw [hpd] at he; cases he
    | some ts =>
      rw [hpd] at he
      cases he
      exact ⟨ts, rfl, rfl⟩
  · intro p rows h
    apply (mapExcept_ok_forall₂ _ h).imp
    intro e r he
    cases hst : e.startTime with
    | none => rw [hst] at he; cases he
    | some s =>
      simp only [hst] at he
      cases hpd : pd_to_datetime s with
      | none => rw [hpd] at he; cases he
      | some ts =>
        rw [hpd] at he
        cases he
        exact ⟨s, ts, rfl, hpd, rfl⟩
  · intro p rows h
    unfold GenerationStrategy.process_data at h
    cases hout : mapExcept (fun e =>
        mapExcept (fun s =>
          match pd_to_datetime e.startTime with
          | none => Except.error (PyErr.dateParseError e.startTime)
          | some ts =>
            Except.ok ({ timestamp := TSVal.pyDateTime ts,
                         psrType := s.psrType, quantity := s.quantity } : GenRow)) e.data) p.data with
    | error e2 => rw [hout] at h; cases h
    | ok groups =>
      rw [hout] at h
      cases h
      refine ⟨groups, rfl, ?_⟩
      apply (mapExcept_ok_forall₂ _ hout).imp
      intro e grp he
      cases hd : e.data with
      | nil =>
        rw [hd] at he
        cases he
        exact Or.inl ⟨rfl, rfl⟩
      | cons s ss =>
        cases hpd : pd_to_datetime e.startTime with
        | none =>
          exfalso
          rw [hd] at he
          simp only [mapExcept, hpd] at he
          exact Except.noConfusion he
        | some ts =>
          refine Or.inr ⟨ts, rfl, ?_⟩
          have hmap := mapExcept_ok_of_forall_mem
            (fun s =>
              match pd_to_datetime e.startTime with
              | none => Except.error (PyErr.dateParseError e.startTime)
              | some ts =>
                Except.ok ({ timestamp := TSVal.pyDateTime ts,
                             psrType := s.psrType, quantity := s.quantity } : GenRow))
            (fun s => ({ timestamp := TSVal.pyDateTime ts,
                         psrType := s.psrType, quantity := s.quantity } : GenRow))
            e.data (by intro s2 _; rw [hpd])
          rw [hmap] at he
          cases he
          rw [hd]

theorem process_data_preserves_order_witness :
    List.Forall₂ (fun (e : TempEntry) (r : TempRow) =>
        ∃ ts, pd_to_datetime e.measurementDate = some ts ∧
          r = ⟨e.temperature, e.temperatureReferenceAverage, TSVal.pyDate ts.date⟩)
      [⟨20, 18, "2023-01-01"⟩, ⟨15, 14, "2023-01-02"⟩]
      [⟨20, 18, TSVal.pyDate ⟨2023, 1, 1⟩⟩, ⟨15, 14, TSVal.pyDate ⟨2023, 1, 2⟩⟩] :=
  process_data_preserves_order.1 ⟨[⟨20, 18, "2023-01-01"⟩, ⟨15, 14, "2023-01-02"⟩]⟩
    [⟨20, 18, TSVal.pyDate ⟨2023, 1, 1⟩⟩, ⟨15, 14, TSVal.pyDate ⟨2023, 1, 2⟩⟩] (by decide)
